import Mathlib

/-!
Shallow embedding of `execution/executors/oci/oci.go` (package `oci` of the
containerd execution adapter), together with models of the collaborators it
uses: the `execution` package's `Container`/`StateDir` records (repository
code not present in the extracted sources, modelled from the spec) and the
external `runc` driver (modelled as an environment per the spec's driver
contract).

Modelling decisions:
* The on-disk ledger is a pair of lists: existing directory paths and
  `(path, contents)` files.  Paths are lists of components; `filepath.Join`
  is list append.
* Go `error` values are an inductive with two shapes: `sentinel` for
  package-level `errors.New` values (comparable identities, such as the
  source's `ErrRootEmpty`) and `errorf` for `fmt.Errorf` results (generic
  formatted errors with no distinct identity).
* The driver (`runc`) is a record of response functions supplied by the
  environment.  `create`/`exec` answer with either an error or the bytes the
  driver writes into the pid file it was handed (`none` meaning the driver
  reported success but wrote no readable pid file).  Every executor
  operation returns, besides its result and the updated ledger, the trace
  of driver calls it issued, so that claims about which driver operations
  were (not) invoked are expressible.
* `ioutil.TempDir`-style fresh slot allocation is modelled by a
  deterministic fresh-name generator (`freshSlot`), and `ioutil.ReadDir`'s
  sorted enumeration by a fixed deterministic enumeration of child
  directories; no claim under verification depends on the particular names
  or their order.
-/

set_option autoImplicit false

namespace Oci

/-- A filesystem path, as a list of components; `filepath.Join` is append. -/
abbrev Path : Type := List String

/-- Go `error` values: a package-level sentinel created by `errors.New`
(a distinct, identity-comparable condition) or a generic formatted error
created by `fmt.Errorf`. -/
inductive GoError where
  | sentinel (msg : String)
  | errorf (msg : String)
deriving DecidableEq, Repr

/-- Whether an error is a generic `fmt.Errorf`-style error, as opposed to a
distinct sentinel condition a caller could test for. -/
def GoError.isGenericFormat : GoError → Bool
  | .errorf _ => true
  | .sentinel _ => false

/-- The on-disk state: the set of existing directories and the files with
their contents. -/
structure FS where
  dirs : List Path
  files : List (Path × String)
deriving DecidableEq, Repr

def FS.dirExists (fs : FS) (p : Path) : Bool :=
  fs.dirs.contains p

def FS.mkdir (fs : FS) (p : Path) : FS :=
  if fs.dirExists p then fs else ⟨p :: fs.dirs, fs.files⟩

def FS.writeFile (fs : FS) (p : Path) (content : String) : FS :=
  ⟨fs.dirs, (p, content) :: fs.files.filter (fun f => !(f.1 = p : Bool))⟩

def FS.readFile (fs : FS) (p : Path) : Option String :=
  (fs.files.find? (fun f => f.1 = p)).map (·.2)

/-- Embedding of `os.RemoveAll`: removes the path and everything below it. -/
def FS.removeAll (fs : FS) (p : Path) : FS :=
  ⟨fs.dirs.filter (fun d => !(p.isPrefixOf d)),
   fs.files.filter (fun f => !(p.isPrefixOf f.1))⟩

/-- The name under which `d` is a direct child of `p`, if it is one. -/
def childName? (p : Path) (d : Path) : Option String :=
  if d.dropLast = p then d.getLast? else none

/-- The names of the immediate subdirectories of `p` (the model of
`ioutil.ReadDir`; a fixed deterministic enumeration order stands in for
ReadDir's sorted order, which no claim depends on). -/
def FS.listDir (fs : FS) (p : Path) : List String :=
  (fs.dirs.filterMap (childName? p)).dedup

/-- The last component of a path (`filepath.Base`). -/
def pathBase (p : Path) : String :=
  p.getLast?.getD ""

/-- Length of the longest name in the list. -/
def maxLen (names : List String) : Nat :=
  names.foldr (fun s m => max s.length m) 0

/-- A name guaranteed fresh with respect to `names`: strictly longer than
every member.  Stands in for `ioutil.TempDir`'s fresh slot-name choice. -/
def freshSlot (names : List String) : String :=
  String.mk (List.replicate (maxLen names + 1) 'p')

/-- Ledger path of a container's entry: `root/<id>`. -/
def containerDir (root id : String) : Path :=
  [root, id]

/-- Ledger path of a container's process collection: `root/<id>/processes`. -/
def processesDir (root id : String) : Path :=
  [root, id, "processes"]

/-- Modelled from the spec: the in-memory Process record missing from the
extracted sources — a process-slot name together with the recorded OS pid. -/
structure Process where
  id : String
  pid : Nat
deriving DecidableEq, Repr

/-- Modelled from the spec: the in-memory Container record missing from the
extracted sources — identity, bundle path, state-directory root, and the
owned process set with each member's init mark. -/
structure Container where
  id : String
  bundle : String
  root : String
  procs : List (Process × Bool)
deriving DecidableEq, Repr

/-- Modelled from the spec: `Container.AddProcess(p, isInit)` appends `p`
to the container's process set, marked init iff `isInit`. -/
def Container.AddProcess (c : Container) (p : Process) (isInit : Bool) : Container :=
  ⟨c.id, c.bundle, c.root, c.procs ++ [(p, isInit)]⟩

/-- Modelled from the spec: `Container.GetProcess(id)` is a pure in-memory
lookup by process id, `none` when absent (Go returns nil). -/
def Container.GetProcess (c : Container) (id : String) : Option Process :=
  (c.procs.find? (fun q => q.1.id = id)).map (·.1)

/-- Modelled from the spec: `execution.NewContainer(root, id, bundle)`
allocates the container-level ledger entry (failing when `id` is already
used by an existing entry) and returns a fresh Container record. -/
def NewContainer (fs : FS) (root id bundle : String) :
    Except GoError Container × FS :=
  if fs.dirExists (containerDir root id) then
    (.error (.errorf ("container with id " ++ id ++ " already exists")), fs)
  else
    (.ok ⟨id, bundle, root, []⟩,
     (fs.mkdir (containerDir root id)).mkdir (processesDir root id))

/-- Modelled from the spec: `execution.LoadContainer` builds an in-memory
Container record for an existing ledger entry, with an empty process set. -/
def LoadContainer (root id bundle : String) : Container :=
  ⟨id, bundle, root, []⟩

/-- Modelled from the spec: `StateDir.NewProcess` allocates a fresh
process-slot directory under `root/<id>/processes` and returns its path. -/
def stateDirNewProcess (fs : FS) (root id : String) : Path × FS :=
  let slot := freshSlot (fs.listDir (processesDir root id))
  let p := processesDir root id ++ [slot]
  (p, fs.mkdir p)

/-- Modelled from the spec: `StateDir.Delete` removes the container's whole
ledger entry. -/
def stateDirDelete (fs : FS) (root id : String) : FS :=
  fs.removeAll (containerDir root id)

/-- Modelled from the spec: `StateDir.DeleteProcess(name)` removes the named
process-slot ledger entry. -/
def stateDirDeleteProcess (fs : FS) (root id slot : String) : FS :=
  fs.removeAll (processesDir root id ++ [slot])

/-- Modelled from the spec: `newProcess(name, pid)` builds a Process record
binding the slot name to the pid. -/
def newProcess (name : String) (pid : Nat) : Except GoError Process :=
  .ok ⟨name, pid⟩

/-- Decimal value of a digit character, if it is one. -/
def digitVal? (c : Char) : Option Nat :=
  if c.toNat ≥ 48 ∧ c.toNat ≤ 57 then some (c.toNat - 48) else none

/-- Accumulator loop of the decimal parser. -/
def parseNatAux : List Char → Nat → Option Nat
  | [], acc => some acc
  | c :: rest, acc =>
    match digitVal? c with
    | none => none
    | some d => parseNatAux rest (acc * 10 + d)

/-- Parse a non-empty all-digit string as a natural number (the model of
parsing the textual pid the driver wrote). -/
def parseNat? (s : String) : Option Nat :=
  match s.data with
  | [] => none
  | l => parseNatAux l 0

/-- Embedding of `runc.ReadPidFile` (the source's call sites spell it `ReadPidFile` and
once `ReadPifFile`): read the file and parse its contents as a pid. -/
def ReadPidFile (fs : FS) (p : Path) : Except GoError Nat :=
  match fs.readFile p with
  | none => .error (.errorf "open pid file: no such file or directory")
  | some content =>
    match parseNat? content with
    | none => .error (.errorf "parse pid file")
    | some n => .ok n

/-- Opaque process-spec payload forwarded to the driver's exec. -/
abbrev ProcessSpec : Type := String

/-- Opaque signal value (`os.Signal`). -/
abbrev Signal : Type := Nat

/-- Opaque stdio streams forwarded to the driver. -/
structure Stdio where
  stdin : String
  stdout : String
  stderr : String
deriving DecidableEq, Repr

/-- Driver-native container descriptor (`runc.Container`): id, bundle and
the driver-reported pid of the init process. -/
structure RuncContainer where
  id : String
  bundle : String
  pid : Nat
deriving DecidableEq, Repr

/-- The external `runc` driver, modelled as an environment of response
functions per the spec's driver contract.  `create` and `exec` receive the
pid-file target the executor hands them and answer with an error or with
the bytes the driver writes into that file (`none`: success but no readable
pid file appeared).  Stdio streams are forwarded opaquely and do not alter
driver behaviour in the model. -/
structure Driver where
  create : String → String → Path → Except GoError (Option String)
  exec : String → ProcessSpec → Path → Except GoError (Option String)
  state : String → Except GoError RuncContainer
  list : Unit → Except GoError (List RuncContainer)
  delete : String → Option GoError
  pause : String → Option GoError
  resume : String → Option GoError

/-- One driver invocation, as recorded in an operation's trace. -/
inductive DriverCall where
  | create (id bundle : String) (pidFile : Path)
  | exec (id : String) (spec : ProcessSpec) (pidFile : Path)
  | state (id : String)
  | list
  | delete (id : String)
  | pause (id : String)
  | resume (id : String)
deriving DecidableEq, Repr

deriving instance DecidableEq for Except

/-- The observable outcome of one executor operation: its result, the
ledger afterwards, and the trace of driver calls it issued. -/
structure Out (α : Type) where
  res : Except GoError α
  fs : FS
  calls : List DriverCall
deriving DecidableEq, Repr

/-- The sentinel the source declares at top level
(`ErrRootEmpty = errors.New("oci: runtime root cannot be an empty string")`).
No function in the source ever returns it. -/
def ErrRootEmpty : GoError :=
  .sentinel "oci: runtime root cannot be an empty string"

/-- The executor (`OCIRuntime`): the runtime root and the `runc` state root
(`filepath.Join(root, "runc")`). -/
structure OCIRuntime where
  root : String
  runcRoot : Path
deriving DecidableEq, Repr

/-- Embedding of `New(root)`: builds the executor unconditionally — the source performs
no emptiness (or any other) check on `root`. -/
def New (root : String) : OCIRuntime :=
  ⟨root, [root, "runc"]⟩

/-- Embedding of `execution.CreateOpts`: bundle path and stdio streams. -/
structure CreateOpts where
  bundle : String
  stdio : Stdio
deriving DecidableEq, Repr

/-- Embedding of `execution.CreateProcessOpts`: process spec and stdio streams. -/
structure CreateProcessOpts where
  spec : ProcessSpec
  stdio : Stdio
deriving DecidableEq, Repr

/-- The driver's effect on the pid file it was handed: on `some content`
it wrote those bytes there, on `none` it wrote nothing. -/
def writePidFile (fs : FS) (p : Path) : Option String → FS
  | some content => fs.writeFile p content
  | none => fs

/-- The part of `Create` that runs after the container-level ledger entry
has been allocated: allocate the init process slot, hand the driver the
pid-file target `<initSlot>/pid`, and — per the deferred cleanup — delete
the whole container-level entry on every error exit (driver failure,
pid-file read failure, process-record construction failure). -/
def createBody (r : OCIRuntime) (d : Driver) (fs1 : FS) (id : String)
    (o : CreateOpts) (container : Container) : Out Container :=
  match stateDirNewProcess fs1 r.root id with
  | (initDir, fs2) =>
    match d.create id o.bundle (initDir ++ ["pid"]) with
    | .error e =>
        ⟨.error e, stateDirDelete fs2 r.root id,
         [DriverCall.create id o.bundle (initDir ++ ["pid"])]⟩
    | .ok written =>
      match ReadPidFile (writePidFile fs2 (initDir ++ ["pid"]) written) (initDir ++ ["pid"]) with
      | .error e =>
          ⟨.error e, stateDirDelete (writePidFile fs2 (initDir ++ ["pid"]) written) r.root id,
           [DriverCall.create id o.bundle (initDir ++ ["pid"])]⟩
      | .ok pid =>
        match newProcess (pathBase initDir) pid with
        | .error e =>
            ⟨.error e, stateDirDelete (writePidFile fs2 (initDir ++ ["pid"]) written) r.root id,
             [DriverCall.create id o.bundle (initDir ++ ["pid"])]⟩
        | .ok process =>
            ⟨.ok (container.AddProcess process true),
             writePidFile fs2 (initDir ++ ["pid"]) written,
             [DriverCall.create id o.bundle (initDir ++ ["pid"])]⟩

/-- Embedding of `OCIRuntime.Create`: allocate the container-level ledger entry (the
early return on allocation failure precedes the deferred cleanup, so a
pre-existing entry is left alone), then run `createBody`. -/
def OCIRuntime.Create (r : OCIRuntime) (d : Driver) (fs : FS) (id : String)
    (o : CreateOpts) : Out Container :=
  match NewContainer fs r.root id o.bundle with
  | (.error e, fs1) => ⟨.error e, fs1, []⟩
  | (.ok container, fs1) => createBody r d fs1 id o container

/-- Body of `load`'s loop over the process-slot subdirectories: read each
slot's `pid` file, build a Process record, and mark it init iff its pid
equals the driver-reported init pid. -/
def loadProcesses (fs : FS) (root cid : String) (initPid : Nat) :
    List String → Container → Except GoError Container
  | [], c => .ok c
  | slot :: rest, c =>
    match ReadPidFile fs (processesDir root cid ++ [slot, "pid"]) with
    | .error e => .error e
    | .ok pid =>
      match newProcess slot pid with
      | .error e => .error e
      | .ok p => loadProcesses fs root cid initPid rest (c.AddProcess p (pid == initPid))

/-- Embedding of `OCIRuntime.load`: reconstruct a Container from the ledger, given the
driver-native descriptor.  Fails when the process collection cannot be
enumerated or any slot's pid file is missing or unparsable. -/
def OCIRuntime.load (r : OCIRuntime) (fs : FS) (runcC : RuncContainer) :
    Except GoError Container :=
  if fs.dirExists (processesDir r.root runcC.id) then
    loadProcesses fs r.root runcC.id runcC.pid
      (fs.listDir (processesDir r.root runcC.id))
      (LoadContainer r.root runcC.id runcC.bundle)
  else
    .error (.errorf "read processes dir: no such file or directory")

/-- The loop of `List`: reconstruct each driver-enumerated container,
aborting on the first failure. -/
def loadAll (r : OCIRuntime) (fs : FS) :
    List RuncContainer → Except GoError (List Container)
  | [] => .ok []
  | c :: rest =>
    match r.load fs c with
    | .error e => .error e
    | .ok ct =>
      match loadAll r fs rest with
      | .error e => .error e
      | .ok l => .ok (ct :: l)

/-- Embedding of `OCIRuntime.List`: enumerate containers through the driver, then
reconstruct each; a single reconstruction failure fails the whole call. -/
def OCIRuntime.List (r : OCIRuntime) (d : Driver) (fs : FS) :
    Out (List Container) :=
  match d.list () with
  | .error e => ⟨.error e, fs, [DriverCall.list]⟩
  | .ok cs =>
    match loadAll r fs cs with
    | .error e => ⟨.error e, fs, [DriverCall.list]⟩
    | .ok l => ⟨.ok l, fs, [DriverCall.list]⟩

/-- Embedding of `OCIRuntime.Load`: query the driver for the container's state, then
reconstruct from the ledger. -/
def OCIRuntime.Load (r : OCIRuntime) (d : Driver) (fs : FS) (id : String) :
    Out Container :=
  match d.state id with
  | .error e => ⟨.error e, fs, [DriverCall.state id]⟩
  | .ok runcC =>
    match r.load fs runcC with
    | .error e => ⟨.error e, fs, [DriverCall.state id]⟩
    | .ok c => ⟨.ok c, fs, [DriverCall.state id]⟩

/-- Embedding of `OCIRuntime.Delete`: invoke driver delete by container id; only on
driver success remove the container's whole ledger entry. -/
def OCIRuntime.Delete (r : OCIRuntime) (d : Driver) (fs : FS) (c : Container) :
    Out Unit :=
  match d.delete c.id with
  | some e => ⟨.error e, fs, [DriverCall.delete c.id]⟩
  | none => ⟨.ok (), stateDirDelete fs c.root c.id, [DriverCall.delete c.id]⟩

/-- Embedding of `OCIRuntime.Pause`: pure pass-through to the driver. -/
def OCIRuntime.Pause (r : OCIRuntime) (d : Driver) (fs : FS) (c : Container) :
    Out Unit :=
  match d.pause c.id with
  | some e => ⟨.error e, fs, [DriverCall.pause c.id]⟩
  | none => ⟨.ok (), fs, [DriverCall.pause c.id]⟩

/-- Embedding of `OCIRuntime.Resume`: pure pass-through to the driver. -/
def OCIRuntime.Resume (r : OCIRuntime) (d : Driver) (fs : FS) (c : Container) :
    Out Unit :=
  match d.resume c.id with
  | some e => ⟨.error e, fs, [DriverCall.resume c.id]⟩
  | none => ⟨.ok (), fs, [DriverCall.resume c.id]⟩

/-- The file name `StartProcess` joins onto the process state dir as its
pid-file target.  In the source this is `filepath.Join(processStateDir, id)`
— the bare identifier `id`, not the string literal `"pid"` that `Create`
uses and that `load` reads back; no variable named `id` is in scope in
`StartProcess`.  The embedding keeps this name as a constant distinct from
`"pid"`. -/
def startProcessPidFileName : String := "id"

/-- Embedding of `OCIRuntime.StartProcess`: allocate a fresh process slot under the
container's entry, invoke driver exec with the pid-file target
`<slot>/` `startProcessPidFileName`, delete the slot on every error exit,
and on success attach the new process to the container unmarked as init.
The source's `newProcess(pid)` call omits the name argument; the embedding
supplies the slot name as `Create` and `load` do. -/
def OCIRuntime.StartProcess (r : OCIRuntime) (d : Driver) (fs : FS)
    (c : Container) (o : CreateProcessOpts) : Out (Process × Container) :=
  match stateDirNewProcess fs c.root c.id with
  | (dir, fs1) =>
    match d.exec c.id o.spec (dir ++ [startProcessPidFileName]) with
    | .error e =>
        ⟨.error e, stateDirDeleteProcess fs1 c.root c.id (pathBase dir),
         [DriverCall.exec c.id o.spec (dir ++ [startProcessPidFileName])]⟩
    | .ok written =>
      match ReadPidFile (writePidFile fs1 (dir ++ [startProcessPidFileName]) written)
          (dir ++ [startProcessPidFileName]) with
      | .error e =>
          ⟨.error e,
           stateDirDeleteProcess (writePidFile fs1 (dir ++ [startProcessPidFileName]) written)
             c.root c.id (pathBase dir),
           [DriverCall.exec c.id o.spec (dir ++ [startProcessPidFileName])]⟩
      | .ok pid =>
        match newProcess (pathBase dir) pid with
        | .error e =>
            ⟨.error e,
             stateDirDeleteProcess (writePidFile fs1 (dir ++ [startProcessPidFileName]) written)
               c.root c.id (pathBase dir),
             [DriverCall.exec c.id o.spec (dir ++ [startProcessPidFileName])]⟩
        | .ok process =>
            ⟨.ok (process, c.AddProcess process false),
             writePidFile fs1 (dir ++ [startProcessPidFileName]) written,
             [DriverCall.exec c.id o.spec (dir ++ [startProcessPidFileName])]⟩

/-- An operating-system side effect issued by the executor. -/
inductive SysEffect where
  | kill (pid : Nat) (sig : Signal)
deriving DecidableEq, Repr

/-- Embedding of `OCIRuntime.SignalProcess`: look the process up in the container's
in-memory set; when absent return the source's literal
`fmt.Errorf("Make a Process Not Found error")`; when present issue
`syscall.Kill` on the recorded pid (the source writes `os.Signal` where the
`sig` parameter is the only sensible referent).  Consults neither the
ledger nor the driver: the operation's type takes no `FS` and no `Driver`. -/
def OCIRuntime.SignalProcess (r : OCIRuntime) (c : Container) (id : String)
    (sig : Signal) : Except GoError SysEffect :=
  match c.GetProcess id with
  | none => .error (.errorf "Make a Process Not Found error")
  | some process => .ok (SysEffect.kill process.pid sig)

/-- Embedding of `OCIRuntime.GetProcess`: pure in-memory lookup. -/
def OCIRuntime.GetProcess (r : OCIRuntime) (c : Container) (id : String) :
    Option Process :=
  c.GetProcess id

/-- Embedding of `OCIRuntime.DeleteProcess`: remove the process-slot ledger entry,
ignoring the removal's outcome, and return nil unconditionally; no driver
call and no OS-process check. -/
def OCIRuntime.DeleteProcess (r : OCIRuntime) (fs : FS) (c : Container)
    (id : String) : Out Unit :=
  ⟨.ok (), stateDirDeleteProcess fs c.root c.id id, []⟩

/-- Whether reconstruction succeeded. -/
def isOkE {α : Type} : Except GoError α → Bool
  | .ok _ => true
  | .error _ => false

/-! Concrete fixtures used to exhibit runs of the executor. -/

/-- An empty ledger. -/
def fs0 : FS := ⟨[], []⟩

/-- Opaque stdio streams. -/
def stdio0 : Stdio := ⟨"", "", ""⟩

/-- Create options with bundle path `/b`. -/
def opts0 : CreateOpts := ⟨"/b", stdio0⟩

/-- StartProcess options with an opaque spec. -/
def procOpts0 : CreateProcessOpts := ⟨"sp", stdio0⟩

/-- A driver error. -/
def errBoom : GoError := .errorf "boom"

/-- A driver whose every operation fails with `errBoom`. -/
def failingDriver : Driver :=
  ⟨fun _ _ _ => .error errBoom, fun _ _ _ => .error errBoom,
   fun _ => .error errBoom, fun _ => .error errBoom,
   fun _ => some errBoom, fun _ => some errBoom, fun _ => some errBoom⟩

/-- A healthy driver: create writes pid 10, exec writes pid 11, state and
list report container `c1` with bundle `/b` and init pid 10, and delete,
pause, resume succeed. -/
def driverRT : Driver :=
  ⟨fun _ _ _ => .ok (some "10"), fun _ _ _ => .ok (some "11"),
   fun cid => .ok ⟨cid, "/b", 10⟩, fun _ => .ok [⟨"c1", "/b", 10⟩],
   fun _ => none, fun _ => none, fun _ => none⟩

/-- A driver whose create and exec report success but leave unparsable
bytes in the pid file. -/
def badPidDriver : Driver :=
  ⟨fun _ _ _ => .ok (some "xyz"), fun _ _ _ => .ok (some "xyz"),
   fun _ => .error errBoom, fun _ => .error errBoom,
   fun _ => some errBoom, fun _ => some errBoom, fun _ => some errBoom⟩

/-- A container record with an empty process set. -/
def cont0 : Container := ⟨"c1", "/b", "r", []⟩

/-- A container record holding one process `p` with pid 42, marked init. -/
def cont1 : Container := ⟨"c1", "/b", "r", [(⟨"p", 42⟩, true)]⟩

/-- The container record a successful `Create` of `c1` under root `r`
against `driverRT` returns. -/
def contRT : Container := ⟨"c1", "/b", "r", [(⟨"p", 10⟩, true)]⟩

/-- Outcome of `Create c1` against `driverRT` on an empty ledger. -/
def outCreateRT : Out Container := (New "r").Create driverRT fs0 "c1" opts0

/-- Outcome of one `StartProcess` on the created container. -/
def outStartRT : Out (Process × Container) :=
  (New "r").StartProcess driverRT outCreateRT.fs contRT procOpts0

/-- Outcome of `Load c1` on the ledger left by create plus one started
process. -/
def outLoadRT : Out Container := (New "r").Load driverRT outStartRT.fs "c1"

/-! Helper lemmas about the ledger model. -/

theorem removeAll_dirs_cleared (fs : FS) (p : Path) :
    ∀ q ∈ (fs.removeAll p).dirs, p.isPrefixOf q = false := by
  intro q hq
  have h := List.of_mem_filter hq
  simpa using h

theorem removeAll_files_cleared (fs : FS) (p : Path) :
    ∀ f ∈ (fs.removeAll p).files, p.isPrefixOf f.1 = false := by
  intro f hf
  have h := List.of_mem_filter hf
  simpa using h

theorem pathBase_concat (p : Path) (s : String) : pathBase (p ++ [s]) = s := by
  simp [pathBase]

theorem stateDirNewProcess_fst_shape (fs : FS) (root id : String) :
    processesDir root id ++ [pathBase (stateDirNewProcess fs root id).1] =
      (stateDirNewProcess fs root id).1 := by
  simp [stateDirNewProcess, pathBase_concat]

/-! Helper lemmas characterizing `createBody`'s branches. -/

theorem createBody_driver_fail (r : OCIRuntime) (d : Driver) (fs1 : FS)
    (id : String) (o : CreateOpts) (container : Container) (e : GoError)
    (hfail : ∀ pf, d.create id o.bundle pf = .error e) :
    (createBody r d fs1 id o container).res = .error e ∧
    (∀ q ∈ (createBody r d fs1 id o container).fs.dirs,
      (containerDir r.root id).isPrefixOf q = false) ∧
    (∀ f ∈ (createBody r d fs1 id o container).fs.files,
      (containerDir r.root id).isPrefixOf f.1 = false) := by
  unfold createBody
  cases hpr : stateDirNewProcess fs1 r.root id with
  | mk initDir fs2 =>
    dsimp only
    rw [hfail]
    exact ⟨rfl, removeAll_dirs_cleared _ _, removeAll_files_cleared _ _⟩

theorem createBody_error_cleanup (r : OCIRuntime) (d : Driver) (fs1 : FS)
    (id : String) (o : CreateOpts) (container : Container) (e : GoError)
    (he : (createBody r d fs1 id o container).res = .error e) :
    (∀ q ∈ (createBody r d fs1 id o container).fs.dirs,
      (containerDir r.root id).isPrefixOf q = false) ∧
    (∀ f ∈ (createBody r d fs1 id o container).fs.files,
      (containerDir r.root id).isPrefixOf f.1 = false) := by
  unfold createBody at he ⊢
  cases hpr : stateDirNewProcess fs1 r.root id with
  | mk initDir fs2 =>
    rw [hpr] at he
    dsimp only at he ⊢
    cases hc : d.create id o.bundle (initDir ++ ["pid"]) with
    | error e0 =>
      exact ⟨removeAll_dirs_cleared _ _, removeAll_files_cleared _ _⟩
    | ok written =>
      rw [hc] at he
      dsimp only at he ⊢
      cases hr : ReadPidFile (writePidFile fs2 (initDir ++ ["pid"]) written)
          (initDir ++ ["pid"]) with
      | error e1 =>
        exact ⟨removeAll_dirs_cleared _ _, removeAll_files_cleared _ _⟩
      | ok pid =>
        rw [hr] at he
        simp [newProcess] at he

theorem createBody_calls (r : OCIRuntime) (d : Driver) (fs1 : FS)
    (id : String) (o : CreateOpts) (container : Container) :
    ∃ pf, (createBody r d fs1 id o container).calls =
      [DriverCall.create id o.bundle pf] := by
  unfold createBody
  cases stateDirNewProcess fs1 r.root id with
  | mk initDir fs2 =>
    dsimp only
    refine ⟨initDir ++ ["pid"], ?_⟩
    cases d.create id o.bundle (initDir ++ ["pid"]) with
    | error e => rfl
    | ok written =>
      dsimp only
      cases ReadPidFile (writePidFile fs2 (initDir ++ ["pid"]) written)
          (initDir ++ ["pid"]) with
      | error e => rfl
      | ok pid => rfl

theorem startProcess_ok_attach (r : OCIRuntime) (d : Driver) (fs : FS)
    (c : Container) (o : CreateProcessOpts) (p : Process) (c2 : Container)
    (h : (r.StartProcess d fs c o).res = .ok (p, c2)) :
    c2 = c.AddProcess p false := by
  unfold OCIRuntime.StartProcess at h
  cases hpr : stateDirNewProcess fs c.root c.id with
  | mk dir fs1 =>
    rw [hpr] at h
    dsimp only at h
    cases hc : d.exec c.id o.spec (dir ++ [startProcessPidFileName]) with
    | error e =>
      rw [hc] at h
      simp at h
    | ok written =>
      rw [hc] at h
      dsimp only at h
      cases hr : ReadPidFile (writePidFile fs1 (dir ++ [startProcessPidFileName]) written)
          (dir ++ [startProcessPidFileName]) with
      | error e =>
        rw [hr] at h
        simp at h
      | ok pid =>
        rw [hr] at h
        simp [newProcess] at h
        obtain ⟨h1, h2⟩ := h
        rw [← h1, ← h2]

/-! Helper lemmas characterizing the loop of `List`. -/

theorem loadAll_ok_length_get (r : OCIRuntime) (fs : FS) :
    ∀ (cs : List RuncContainer) (l : List Container), loadAll r fs cs = .ok l →
      l.length = cs.length ∧
      (∀ i (hc : i < cs.length) (hl : i < l.length),
        r.load fs (cs.get ⟨i, hc⟩) = .ok (l.get ⟨i, hl⟩)) := by
  intro cs
  induction cs with
  | nil =>
    intro l h
    simp only [loadAll] at h
    injection h with h1
    subst h1
    exact ⟨rfl, fun i hc _ => absurd hc (Nat.not_lt_zero i)⟩
  | cons c0 rest ih =>
    intro l h
    simp only [loadAll] at h
    cases hl0 : r.load fs c0 with
    | error e =>
      rw [hl0] at h
      cases h
    | ok ct =>
      rw [hl0] at h
      cases hrest : loadAll r fs rest with
      | error e =>
        rw [hrest] at h
        cases h
      | ok l0 =>
        rw [hrest] at h
        injection h with h1
        subst h1
        obtain ⟨ihlen, ihget⟩ := ih l0 hrest
        refine ⟨by simp [ihlen], ?_⟩
        intro i hc hl2
        cases i with
        | zero => exact hl0
        | succ j => exact ihget j (Nat.lt_of_succ_lt_succ hc) (Nat.lt_of_succ_lt_succ hl2)

theorem loadAll_error_of_exists_fail (r : OCIRuntime) (fs : FS) :
    ∀ cs : List RuncContainer, (∃ c ∈ cs, isOkE (r.load fs c) = false) →
      ∃ e, loadAll r fs cs = .error e := by
  intro cs
  induction cs with
  | nil =>
    intro h
    obtain ⟨c, hc, _⟩ := h
    cases hc
  | cons c0 rest ih =>
    intro h
    simp only [loadAll]
    cases hl0 : r.load fs c0 with
    | error e => exact ⟨e, rfl⟩
    | ok ct =>
      obtain ⟨c, hc, hbad⟩ := h
      rcases List.mem_cons.mp hc with h' | hmem
      · rw [h'] at hbad
        rw [hl0] at hbad
        simp [isOkE] at hbad
      · obtain ⟨e, he⟩ := ih ⟨c, hmem, hbad⟩
        dsimp only
        rw [he]
        exact ⟨e, rfl⟩

theorem loadAll_ok_of_all_ok (r : OCIRuntime) (fs : FS) :
    ∀ cs : List RuncContainer, (∀ c ∈ cs, isOkE (r.load fs c) = true) →
      ∃ l, loadAll r fs cs = .ok l := by
  intro cs
  induction cs with
  | nil =>
    intro _
    exact ⟨[], rfl⟩
  | cons c0 rest ih =>
    intro h
    have h0 := h c0 (List.mem_cons_self c0 rest)
    cases hl0 : r.load fs c0 with
    | error e =>
      rw [hl0] at h0
      simp [isOkE] at h0
    | ok ct =>
      obtain ⟨l, hlrest⟩ := ih (fun c hc => h c (List.mem_cons_of_mem _ hc))
      refine ⟨ct :: l, ?_⟩
      simp only [loadAll]
      rw [hl0, hlrest]

/-! Claim theorems. -/

/-- C1: whenever the driver's create invocation fails, `Create` returns that
error and the container-level ledger entry allocated for the id does not
exist afterwards — no directory or file under `root/<id>` remains. -/
theorem create_driver_failure_rolls_back (r : OCIRuntime) (d : Driver) (fs : FS)
    (id : String) (o : CreateOpts) (e : GoError)
    (hfree : fs.dirExists (containerDir r.root id) = false)
    (hfail : ∀ pf, d.create id o.bundle pf = .error e) :
    (r.Create d fs id o).res = .error e ∧
    (∀ q ∈ (r.Create d fs id o).fs.dirs, (containerDir r.root id).isPrefixOf q = false) ∧
    (∀ f ∈ (r.Create d fs id o).fs.files, (containerDir r.root id).isPrefixOf f.1 = false) := by
  unfold OCIRuntime.Create NewContainer
  rw [hfree]
  simp only [Bool.false_eq_true, if_false]
  exact createBody_driver_fail r d _ id o _ e hfail

/-- C1 witness: a failing driver on an empty ledger. -/
theorem create_driver_failure_rolls_back_witness :
    (fs0.dirExists (containerDir (New "r").root "c1") = false ∧
     (∀ pf, failingDriver.create "c1" opts0.bundle pf = .error errBoom)) ∧
    (((New "r").Create failingDriver fs0 "c1" opts0).res = .error errBoom ∧
     (∀ q ∈ ((New "r").Create failingDriver fs0 "c1" opts0).fs.dirs,
        (containerDir (New "r").root "c1").isPrefixOf q = false) ∧
     (∀ f ∈ ((New "r").Create failingDriver fs0 "c1" opts0).fs.files,
        (containerDir (New "r").root "c1").isPrefixOf f.1 = false)) :=
  ⟨⟨rfl, fun _ => rfl⟩,
   create_driver_failure_rolls_back (New "r") failingDriver fs0 "c1" opts0 errBoom
     rfl (fun _ => rfl)⟩

/-- C5: `Delete` invokes the driver's delete exactly once, with the
container's id; on driver failure it returns the error with the ledger left
completely unchanged; on driver success it removes the container's entire
ledger entry. -/
theorem delete_driver_gates_ledger_removal (r : OCIRuntime) (d : Driver)
    (fs : FS) (c : Container) :
    (r.Delete d fs c).calls = [DriverCall.delete c.id] ∧
    (∀ e, d.delete c.id = some e →
      (r.Delete d fs c).res = .error e ∧ (r.Delete d fs c).fs = fs) ∧
    (d.delete c.id = none →
      (r.Delete d fs c).res = .ok () ∧
      (∀ q ∈ (r.Delete d fs c).fs.dirs, (containerDir c.root c.id).isPrefixOf q = false) ∧
      (∀ f ∈ (r.Delete d fs c).fs.files, (containerDir c.root c.id).isPrefixOf f.1 = false)) := by
  unfold OCIRuntime.Delete
  cases h : d.delete c.id with
  | some e0 =>
    refine ⟨rfl, ?_, ?_⟩
    · intro e he
      cases he
      exact ⟨rfl, rfl⟩
    · intro hn
      cases hn
  | none =>
    refine ⟨rfl, ?_, ?_⟩
    · intro e he
      cases he
    · intro _
      exact ⟨rfl, removeAll_dirs_cleared _ _, removeAll_files_cleared _ _⟩

/-- C5 witness: a failing driver leaves the ledger as it was; a succeeding
driver yields success. -/
theorem delete_driver_gates_ledger_removal_witness :
    (failingDriver.delete cont1.id = some errBoom ∧
     ((New "r").Delete failingDriver outCreateRT.fs cont1).res = .error errBoom ∧
     ((New "r").Delete failingDriver outCreateRT.fs cont1).fs = outCreateRT.fs) ∧
    (driverRT.delete cont1.id = none ∧
     ((New "r").Delete driverRT outCreateRT.fs cont1).res = .ok ()) :=
  ⟨⟨rfl,
    (delete_driver_gates_ledger_removal (New "r") failingDriver outCreateRT.fs cont1).2.1
      errBoom rfl⟩,
   ⟨rfl,
    ((delete_driver_gates_ledger_removal (New "r") driverRT outCreateRT.fs cont1).2.2
      rfl).1⟩⟩

/-- C10: `DeleteProcess` returns success unconditionally and performs no
driver call (its call trace is empty; its type consults neither the driver
nor the operating system). -/
theorem deleteProcess_always_succeeds (r : OCIRuntime) (fs : FS)
    (c : Container) (id : String) :
    (r.DeleteProcess fs c id).res = .ok () ∧
    (r.DeleteProcess fs c id).calls = [] ∧
    (r.DeleteProcess fs c id).fs = stateDirDeleteProcess fs c.root c.id id :=
  ⟨rfl, rfl, rfl⟩

/-- C2: signaling a process id missing from the container's in-memory set
returns the source's literal generic error (a `fmt.Errorf` result, not a
distinct sentinel not-found condition), and signaling a present process
issues the kill on its recorded pid. -/
theorem signalProcess_unknown_returns_generic_error :
    (New "r").SignalProcess cont0 "p1" 9 =
      .error (.errorf "Make a Process Not Found error") ∧
    GoError.isGenericFormat (.errorf "Make a Process Not Found error") = true ∧
    (∀ m, GoError.errorf "Make a Process Not Found error" ≠ GoError.sentinel m) ∧
    (New "r").SignalProcess cont1 "p" 9 = .ok (SysEffect.kill 42 9) := by
  refine ⟨rfl, rfl, ?_, rfl⟩
  intro m h
  exact GoError.noConfusion h

/-- C3: `New` performs no check at all on the runtime root: constructing
with the empty string yields an ordinary executor whose root is empty,
and the declared `ErrRootEmpty` sentinel is never produced (`New` has no
error channel in its type). -/
theorem new_accepts_empty_root :
    New "" = ⟨"", ["", "runc"]⟩ ∧ (New "").root = "" :=
  ⟨rfl, rfl⟩

/-- C8: the pid-file target `Create` hands the driver is the file named
`pid` inside the init slot, but the target `StartProcess` hands the driver
is a file with a different name inside its slot, which `load` (reading
`<slot>/pid`) will never find. -/
theorem pidFile_target_mismatch :
    outCreateRT.calls =
      [DriverCall.create "c1" "/b" ["r", "c1", "processes", "p", "pid"]] ∧
    outStartRT.calls =
      [DriverCall.exec "c1" "sp" ["r", "c1", "processes", "pp", startProcessPidFileName]] ∧
    startProcessPidFileName ≠ "pid" := by
  refine ⟨by decide, by decide, by decide⟩

/-- C9: once the container-level ledger entry has been allocated, every
error exit of `Create` — driver failure, pid-file read or parse failure,
process-record construction failure — leaves no trace of the entry, and no
driver delete is ever invoked on any `Create` path, so a process the driver
did start successfully can be left running with no ledger record. -/
theorem create_error_exits_remove_entry_no_driver_delete (r : OCIRuntime)
    (d : Driver) (fs : FS) (id : String) (o : CreateOpts)
    (hfree : fs.dirExists (containerDir r.root id) = false) :
    (∀ e, (r.Create d fs id o).res = .error e →
      (∀ q ∈ (r.Create d fs id o).fs.dirs, (containerDir r.root id).isPrefixOf q = false) ∧
      (∀ f ∈ (r.Create d fs id o).fs.files, (containerDir r.root id).isPrefixOf f.1 = false)) ∧
    (∀ s, DriverCall.delete s ∉ (r.Create d fs id o).calls) := by
  unfold OCIRuntime.Create NewContainer
  rw [hfree]
  simp only [Bool.false_eq_true, if_false]
  constructor
  · intro e he
    exact createBody_error_cleanup r d _ id o _ e he
  · intro s hs
    obtain ⟨pf, hpf⟩ := createBody_calls r d _ id o _
    rw [hpf] at hs
    simp at hs

/-- C9 witness: a driver that reports success but writes an unparsable pid
file — the driver-created process is live, yet the entry is removed and no
driver delete was issued. -/
theorem create_error_exits_remove_entry_no_driver_delete_witness :
    fs0.dirExists (containerDir (New "r").root "c1") = false ∧
    ((New "r").Create badPidDriver fs0 "c1" opts0).res = .error (.errorf "parse pid file") ∧
    (∀ q ∈ ((New "r").Create badPidDriver fs0 "c1" opts0).fs.dirs,
      (containerDir (New "r").root "c1").isPrefixOf q = false) ∧
    (∀ s, DriverCall.delete s ∉ ((New "r").Create badPidDriver fs0 "c1" opts0).calls) :=
  ⟨by decide, by decide,
   ((create_error_exits_remove_entry_no_driver_delete (New "r") badPidDriver fs0 "c1" opts0
       (by decide)).1 (.errorf "parse pid file") (by decide)).1,
   (create_error_exits_remove_entry_no_driver_delete (New "r") badPidDriver fs0 "c1" opts0
       (by decide)).2⟩

/-- C6: whenever the driver's exec invocation fails, `StartProcess` returns
that error and the freshly allocated process-slot ledger entry does not
exist afterwards; whenever it succeeds, the returned process is attached to
the container not marked as init. -/
theorem startProcess_rollback_and_attach (r : OCIRuntime) (d : Driver)
    (fs : FS) (c : Container) (o : CreateProcessOpts) :
    (∀ e, (∀ pf, d.exec c.id o.spec pf = .error e) →
      (r.StartProcess d fs c o).res = .error e ∧
      (∀ q ∈ (r.StartProcess d fs c o).fs.dirs,
        ((stateDirNewProcess fs c.root c.id).1).isPrefixOf q = false) ∧
      (∀ f ∈ (r.StartProcess d fs c o).fs.files,
        ((stateDirNewProcess fs c.root c.id).1).isPrefixOf f.1 = false)) ∧
    (∀ p c2, (r.StartProcess d fs c o).res = .ok (p, c2) →
      c2 = c.AddProcess p false) := by
  constructor
  · intro e hfail
    have hshape := stateDirNewProcess_fst_shape fs c.root c.id
    unfold OCIRuntime.StartProcess
    cases hpr : stateDirNewProcess fs c.root c.id with
    | mk dir fs1 =>
      rw [hpr] at hshape
      dsimp only at hshape ⊢
      rw [hfail]
      refine ⟨rfl, ?_, ?_⟩
      · intro q hq
        have h2 := removeAll_dirs_cleared fs1 (processesDir c.root c.id ++ [pathBase dir]) q hq
        rwa [hshape] at h2
      · intro f hf
        have h2 := removeAll_files_cleared fs1 (processesDir c.root c.id ++ [pathBase dir]) f hf
        rwa [hshape] at h2
  · intro p c2 h
    exact startProcess_ok_attach r d fs c o p c2 h

/-- C6 witness: exec failure rolls the slot back; exec success attaches the
new process unmarked as init. -/
theorem startProcess_rollback_and_attach_witness :
    ((New "r").StartProcess failingDriver outCreateRT.fs contRT procOpts0).res =
      .error errBoom ∧
    ((New "r").StartProcess driverRT outCreateRT.fs contRT procOpts0).res =
      .ok (⟨"pp", 11⟩, contRT.AddProcess ⟨"pp", 11⟩ false) :=
  ⟨((startProcess_rollback_and_attach (New "r") failingDriver outCreateRT.fs contRT
       procOpts0).1 errBoom (fun _ => rfl)).1,
   by decide⟩

/-- C7: when the driver's enumeration fails, `List` returns that error;
given a driver enumeration, if any single container's reconstruction fails
the whole call returns an error (no partial sequence), if every
reconstruction succeeds the call succeeds, and any returned sequence has
exactly one reconstructed container per driver-enumerated container. -/
theorem list_all_or_nothing (r : OCIRuntime) (d : Driver) (fs : FS) :
    (∀ e, d.list () = .error e → (r.List d fs).res = .error e) ∧
    (∀ cs, d.list () = .ok cs →
      ((∃ c ∈ cs, isOkE (r.load fs c) = false) → ∃ e, (r.List d fs).res = .error e) ∧
      ((∀ c ∈ cs, isOkE (r.load fs c) = true) → ∃ l, (r.List d fs).res = .ok l) ∧
      (∀ l, (r.List d fs).res = .ok l →
        l.length = cs.length ∧
        ∀ i (hc : i < cs.length) (hl : i < l.length),
          r.load fs (cs.get ⟨i, hc⟩) = .ok (l.get ⟨i, hl⟩))) := by
  constructor
  · intro e he
    unfold OCIRuntime.List
    rw [he]
  · intro cs hcs
    refine ⟨?_, ?_, ?_⟩
    · intro hex
      obtain ⟨e, he⟩ := loadAll_error_of_exists_fail r fs cs hex
      unfold OCIRuntime.List
      rw [hcs]
      dsimp only
      rw [he]
      exact ⟨e, rfl⟩
    · intro hall
      obtain ⟨l, hl⟩ := loadAll_ok_of_all_ok r fs cs hall
      unfold OCIRuntime.List
      rw [hcs]
      dsimp only
      rw [hl]
      exact ⟨l, rfl⟩
    · intro l hres
      unfold OCIRuntime.List at hres
      rw [hcs] at hres
      dsimp only at hres
      cases hla : loadAll r fs cs with
      | error e =>
        rw [hla] at hres
        simp at hres
      | ok l0 =>
        rw [hla] at hres
        simp at hres
        rw [← hres]
        exact loadAll_ok_length_get r fs cs l0 hla

/-- C7 witness: the healthy run succeeds; on an empty ledger the single
container's reconstruction fails and the whole call errors. -/
theorem list_all_or_nothing_witness :
    (∃ l, ((New "r").List driverRT outCreateRT.fs).res = .ok l) ∧
    (∃ e, ((New "r").List driverRT fs0).res = .error e) :=
  ⟨((list_all_or_nothing (New "r") driverRT outCreateRT.fs).2 [⟨"c1", "/b", 10⟩]
      rfl).2.1 (by decide),
   ((list_all_or_nothing (New "r") driverRT fs0).2 [⟨"c1", "/b", 10⟩]
      rfl).1 (by decide)⟩

/-- C4: the round trip already fails at N = 1 — after a successful Create
and one successful StartProcess, Load returns a read error instead of a
container with 2 processes, because StartProcess wrote the pid file under a
name `load` does not read (while at N = 0 Load does reconstruct the single
init process). -/
theorem load_roundtrip_fails_after_one_startProcess :
    outCreateRT.res = .ok contRT ∧
    outStartRT.res = .ok (⟨"pp", 11⟩, contRT.AddProcess ⟨"pp", 11⟩ false) ∧
    ((New "r").Load driverRT outCreateRT.fs "c1").res = .ok contRT ∧
    outLoadRT.res = .error (.errorf "open pid file: no such file or directory") := by
  refine ⟨by decide, by decide, by decide, by decide⟩

end Oci
